import Mathlib

/-
Verification of the watusi-lmstudio-bridge relay (src/app.py) against its
specification.  The Python source is shallowly embedded: dictionaries become
an inductive `Json` value, the backend (LM Studio) becomes an oracle `Env`
giving the result of each successive outbound HTTP call, and every outbound
call is recorded in an event trace so that call counts and call ordering can
be stated.  Python exceptions raised by outbound calls are modelled as
`Except Unit` results; code paths that cannot raise are total functions.
-/

namespace WatusiBridge

/-! ### Python string primitives -/

/-- Whitespace characters stripped by Python `str.strip()`. -/
def pyIsSpace (c : Char) : Bool :=
  c = ' ' || c = '\t' || c = '\n' || c = '\r' || c = '\x0b' || c = '\x0c'

def stripList (l : List Char) : List Char :=
  ((l.dropWhile pyIsSpace).reverse.dropWhile pyIsSpace).reverse

/-- Python `str.strip()`. -/
def pyStrip (s : String) : String := ⟨stripList s.data⟩

/-- Python `str.lower()` (ASCII is all the source needs). -/
def pyLower (s : String) : String := ⟨s.data.map Char.toLower⟩

/-- Python `"\n".join(parts)`. -/
def joinLines : List String → String
  | [] => ""
  | [s] => s
  | s :: rest => s ++ "\n" ++ joinLines rest

/-- Split a character list at every newline (used to state line-level facts). -/
def splitNl : List Char → List (List Char)
  | [] => [[]]
  | c :: rest =>
    match splitNl rest with
    | [] => [[c]]
    | h :: t => if c = '\n' then [] :: h :: t else (c :: h) :: t

/-! ### JSON values (Python objects carried in request/response bodies) -/

mutual

inductive Json where
  | null : Json
  | bool : Bool → Json
  | num : Int → Json
  | str : String → Json
  | arr : JsonList → Json
  | obj : JsonFields → Json
deriving DecidableEq, Repr

inductive JsonList where
  | nil : JsonList
  | cons : Json → JsonList → JsonList
deriving DecidableEq, Repr

inductive JsonFields where
  | nil : JsonFields
  | cons : String → Json → JsonFields → JsonFields
deriving DecidableEq, Repr

end

/-- Build a JSON array from a Lean list (input notation convenience). -/
def jarrOf : List Json → JsonList
  | [] => JsonList.nil
  | j :: rest => JsonList.cons j (jarrOf rest)

def jarr (l : List Json) : Json := Json.arr (jarrOf l)

/-- Build a JSON object from a Lean association list. -/
def jobjOf : List (String × Json) → JsonFields
  | [] => JsonFields.nil
  | (k, v) :: rest => JsonFields.cons k v (jobjOf rest)

def jobj (l : List (String × Json)) : Json := Json.obj (jobjOf l)

def JsonList.toList : JsonList → List Json
  | JsonList.nil => []
  | JsonList.cons j rest => j :: rest.toList

def jsonLookup (l : JsonFields) (k : String) : Option Json :=
  match l with
  | JsonFields.nil => none
  | JsonFields.cons k2 v rest => if k2 = k then some v else jsonLookup rest k

/-- Python `d.get(k)`: `None` when `d` is not a dict or the key is absent. -/
def Json.get (j : Json) (k : String) : Option Json :=
  match j with
  | Json.obj l => jsonLookup l k
  | _ => none

/-- Python truthiness of a JSON value. -/
def Json.truthy : Json → Bool
  | Json.null => false
  | Json.bool b => b
  | Json.num n => decide (n ≠ 0)
  | Json.str s => decide (s ≠ "")
  | Json.arr JsonList.nil => false
  | Json.arr (JsonList.cons _ _) => true
  | Json.obj JsonFields.nil => false
  | Json.obj (JsonFields.cons _ _ _) => true

/-- Python `a or b or ... or default` over looked-up values. -/
def firstTruthy (l : List (Option Json)) (dflt : Json) : Json :=
  match l.findSome? (fun o => o.bind (fun j => if j.truthy then some j else none)) with
  | some j => j
  | none => dflt

/-! ### Data model: message turns and the conversation store -/

structure Turn where
  role : String
  content : String
deriving DecidableEq, Repr

/-- `conversations`: in-memory store keyed by sender JID (a Python dict, so the
key may be any JSON value the payload supplied). -/
abbrev Store := List (Json × List Turn)

def storeGet (s : Store) (k : Json) : Option (List Turn) :=
  match s with
  | [] => none
  | (k2, v) :: rest => if k2 = k then some v else storeGet rest k

def storeSet (s : Store) (k : Json) (v : List Turn) : Store :=
  match s with
  | [] => [(k, v)]
  | (k2, v2) :: rest =>
    if k2 = k then (k2, v) :: rest else (k2, v2) :: storeSet rest k v

/-- Python slice `l[-n:]`. -/
def lastN (n : Nat) (l : List α) : List α := l.drop (l.length - n)

/-! ### Payload Normalizer (`_extract_message_text`, sender extraction) -/

/-- The fixed priority list of text alias keys probed by `_extract_message_text`. -/
def candidates : List String :=
  ["text", "message", "body", "MESSAGE", "MESSAGE-TEXT", "message-text", "content"]

/-- One probe: `isinstance(v, str) and v.strip()` returns the raw value `v`. -/
def strHit (v : Option Json) : Option String :=
  match v with
  | some (Json.str s) => if pyStrip s ≠ "" then some s else none
  | _ => none

def probeKeys (d : Json) : Option String :=
  candidates.findSome? (fun k => strHit (d.get k))

/-- Probe the candidate keys one level down, under wrapper key `w`, only when
the wrapped value is a dict. -/
def probeWrapper (payload : Json) (w : String) : Option String :=
  match payload.get w with
  | some (Json.obj inner) => probeKeys (Json.obj inner)
  | _ => none

def _extract_message_text (payload : Json) : String :=
  match probeKeys payload with
  | some v => v
  | none =>
    match probeWrapper payload "data" with
    | some v => v
    | none =>
      match probeWrapper payload "payload" with
      | some v => v
      | none => ""

def senderJidOf (payload : Json) : Json :=
  firstTruthy [payload.get "jid", payload.get "wa_id", payload.get "from"]
    (Json.str "unknown")

def senderNameOf (payload : Json) : Json :=
  firstTruthy [payload.get "name", payload.get "profile_name", payload.get "chat_name"]
    (Json.str "User")

/-! ### Response-shape text extraction (`_extract_ai_text`) -/

def _extract_ai_text (result : Json) : String :=
  let top :=
    match result.get "content" with
    | some (Json.str s) => pyStrip s
    | _ => ""
  match result.get "choices" with
  | some (Json.arr (JsonList.cons ch0 _)) =>
    match (ch0.get "message").bind (fun m => m.get "content") with
    | some (Json.str c) => pyStrip c
    | _ =>
      match ch0.get "text" with
      | some (Json.str t) => pyStrip t
      | _ => top
  | _ => top

/-! ### Prompt linearization (`_messages_to_prompt`) -/

/-- One iteration of the `for m in messages[-8:]` loop body. -/
def promptStep (parts : List String) (m : Turn) : List String :=
  let content := pyStrip m.content
  if content = "" then parts
  else if m.role = "user" then parts ++ ["User: " ++ content]
  else if m.role = "assistant" then parts ++ ["Assistant: " ++ content]
  else parts ++ [content]

def _messages_to_prompt (messages : List Turn) : String :=
  let parts := (lastN 8 messages).foldl promptStep []
  joinLines (parts ++ ["Assistant:"])

/-! ### Model Resolver (`get_active_model`) -/

/-- `[m.get("id") for m in data.get("data", []) if isinstance(m, dict)]`.
Python raises inside the surrounding `try` when `data` is not a dict or the
`"data"` value is not iterable, and then returns the configured preference;
those paths are mapped to the empty id list, which produces the same returned
value on every branch of `get_active_model`. -/
def extractIds (data : Json) : List Json :=
  match data.get "data" with
  | some (Json.arr l) =>
    (l.toList.filter (fun m => match m with | Json.obj _ => true | _ => false)).map
      (fun m => (m.get "id").getD Json.null)
  | _ => []

/-- `fetch` is the outcome of `GET /v1/models` plus JSON-decoding its body. -/
def get_active_model (pref : String) (fetch : Except Unit Json) : Json :=
  match fetch with
  | Except.error _ => Json.str pref
  | Except.ok data =>
    let ids := extractIds data
    let p := pyLower (pyStrip pref)
    if p = "" ∨ p = "auto" ∨ p = "*" then
      match ids with
      | i :: _ => i
      | [] => Json.str pref
    else if Json.str pref ∈ ids then Json.str pref
    else
      match ids with
      | i :: _ => i
      | [] => Json.str pref

/-! ### Backend oracle and outbound-call traces

`Env` gives the result of the n-th call to each outbound endpoint:
`Except.error ()` stands for any exception raised while performing the call
(connection error, non-2xx via `raise_for_status`, JSON decode failure), and
`Except.ok j` for a decoded response body `j`.  Every outbound call is
recorded as an `Event`, in order. -/

inductive Event where
  | modelsFetch : Event
  | chatPost : Json → Event
  | compPost : Json → String → Event
deriving DecidableEq, Repr

structure Env where
  models : Nat → Except Unit Json
  chat : Nat → Except Unit Json
  comp : Nat → Except Unit Json

def isModelsFetch : Event → Bool
  | Event.modelsFetch => true
  | _ => false

def isChatPost : Event → Bool
  | Event.chatPost _ => true
  | _ => false

def isCompPost : Event → Bool
  | Event.compPost _ _ => true
  | _ => false

def modelsCount (es : List Event) : Nat := es.countP isModelsFetch
def chatCount (es : List Event) : Nat := es.countP isChatPost
def compCount (es : List Event) : Nat := es.countP isCompPost

/-- A call to `get_active_model()`: consumes the next models-fetch result. -/
def resolveModel (pref : String) (env : Env) (es : List Event) : Json × List Event :=
  (get_active_model pref (env.models (modelsCount es)), es ++ [Event.modelsFetch])

/-- `requests.post(LM_STUDIO_URL, ...)` with the given model id. -/
def postChat (env : Env) (mid : Json) (es : List Event) :
    Except Unit Json × List Event :=
  (env.chat (chatCount es), es ++ [Event.chatPost mid])

/-- `requests.post(LM_STUDIO_COMPLETIONS_URL, ...)` with model id and prompt. -/
def postComp (env : Env) (mid : Json) (prompt : String) (es : List Event) :
    Except Unit Json × List Event :=
  (env.comp (compCount es), es ++ [Event.compPost mid prompt])

/-! ### Inference Client (`_call_lm_studio`) -/

/-- The completions-endpoint fallback block at the end of `_call_lm_studio`. -/
def fallbackCompletions (pref : String) (env : Env) (messages : List Turn)
    (es : List Event) : String × List Event :=
  let prompt := _messages_to_prompt messages
  let (mid, es1) := resolveModel pref env es
  let (r, es2) := postComp env mid prompt es1
  match r with
  | Except.error _ => ("", es2)
  | Except.ok j => (_extract_ai_text j, es2)

/-- `_call_lm_studio`, with the two-iteration `for attempt in range(2)` loop
unrolled.  On a raised exception the model id is refreshed inside the
`except` branch; on an HTTP-success whose body yields empty extracted text
the loop merely continues with the same model id. -/
def _call_lm_studio (pref : String) (env : Env) (messages : List Turn) :
    String × List Event :=
  let (mid0, es1) := resolveModel pref env []
  let (r1, es2) := postChat env mid0 es1
  match r1 with
  | Except.ok j1 =>
    let a1 := _extract_ai_text j1
    if a1 ≠ "" then (a1, es2)
    else
      let (r2, es3) := postChat env mid0 es2
      match r2 with
      | Except.ok j2 =>
        let a2 := _extract_ai_text j2
        if a2 ≠ "" then (a2, es3) else fallbackCompletions pref env messages es3
      | Except.error _ =>
        let (_, es4) := resolveModel pref env es3
        fallbackCompletions pref env messages es4
  | Except.error _ =>
    let (mid1, es3) := resolveModel pref env es2
    let (r2, es4) := postChat env mid1 es3
    match r2 with
    | Except.ok j2 =>
      let a2 := _extract_ai_text j2
      if a2 ≠ "" then (a2, es4) else fallbackCompletions pref env messages es4
    | Except.error _ =>
      let (_, es5) := resolveModel pref env es4
      fallbackCompletions pref env messages es5

/-- Did this primary-endpoint attempt fail, in the sense of step 3 of the
Inference Client contract (exception, or no non-empty extracted text)? -/
def attemptFailed (r : Except Unit Json) : Bool :=
  match r with
  | Except.error _ => true
  | Except.ok j => _extract_ai_text j = ""

/-! ### Relay Orchestrator (`build_messages`, `auto_reply`) -/

def build_messages (conversations : Store) (sender_name : Json) (sender_jid : Json)
    (text : String) : List Turn :=
  let history := lastN 8 ((storeGet conversations sender_jid).getD [])
  history ++ [⟨"user", text⟩]

structure Config where
  allowedJids : List String
  modelPref : String

def jidAllowed (allowed : List String) (jid : Json) : Bool :=
  match jid with
  | Json.str s => allowed.contains s
  | _ => false

/-- `jsonify({"message": s})`. -/
def msgBody (s : String) : Json := jobj [("message", Json.str s)]

structure ReplyResult where
  body : Json
  status : Nat
  conversations : Store
  events : List Event
deriving DecidableEq, Repr

/-- The `/auto-reply` handler.  `store` is the `conversations` dict on entry;
the returned record carries the response body and HTTP status, the dict on
exit, and the outbound calls made while handling the request. -/
def auto_reply (cfg : Config) (env : Env) (store : Store) (payload : Json) :
    ReplyResult :=
  let sender_jid := senderJidOf payload
  let sender_name := senderNameOf payload
  let message_text := _extract_message_text payload
  if cfg.allowedJids ≠ [] ∧ jidAllowed cfg.allowedJids sender_jid = false then
    ⟨msgBody "", 200, store, []⟩
  else if message_text = "" then
    ⟨msgBody "", 200, store, []⟩
  else
    let messages := build_messages store sender_name sender_jid message_text
    let (ai_text, es) := _call_lm_studio cfg.modelPref env messages
    if ai_text = "" then ⟨msgBody "", 200, store, es⟩
    else
      let conv := (storeGet store sender_jid).getD []
      let store2 := storeSet store sender_jid
        (conv ++ [⟨"user", message_text⟩, ⟨"assistant", ai_text⟩])
      ⟨msgBody ai_text, 200, store2, es⟩

/-- Iterate the handler `n` times from an empty store, same payload each time. -/
def runExchanges (cfg : Config) (env : Env) (payload : Json) : Nat → Store
  | 0 => []
  | n + 1 => (auto_reply cfg env (runExchanges cfg env payload n) payload).conversations

/-! ### Concrete scenario inputs -/

/-- A chat-style backend response whose content is "hello there". -/
def chatRespGood : Json :=
  jobj [("choices", jarr [jobj [("message", jobj [("content", Json.str "hello there")])]])]

/-- Backend that always answers the chat endpoint with `chatRespGood` and
fails every other call. -/
def envGood : Env :=
  ⟨fun _ => Except.error (), fun _ => Except.ok chatRespGood, fun _ => Except.error ()⟩

def payload42 : Json := jobj [("jid", Json.str "42"), ("text", Json.str "hi")]

/-- Empty allow-list (unrestricted), preference "auto". -/
def cfgOpen : Config := ⟨[], "auto"⟩

/-- A `/v1/models` response body listing the given model ids. -/
def modelsCatalog (l : List String) : Json :=
  jobj [("data", jarr (l.map (fun s => jobj [("id", Json.str s)])))]

/-- Backend whose model catalog is ["m1"] on the first fetch and ["m2"]
afterwards, whose chat endpoint always returns HTTP success with an
unparseable body, and whose completions endpoint always fails. -/
def envShift : Env :=
  ⟨fun n => if n = 0 then Except.ok (modelsCatalog ["m1"]) else Except.ok (modelsCatalog ["m2"]),
   fun _ => Except.ok (jobj []),
   fun _ => Except.error ()⟩

def msgsHi : List Turn := [⟨"user", "hi"⟩]

/-- A payload whose fields all sit under the "data" wrapper key. -/
def wrappedPayload : Json :=
  jobj [("data", jobj [("jid", Json.str "42"), ("text", Json.str "hi")])]

/-- A backend on which every outbound call raises. -/
def envFail : Env :=
  ⟨fun _ => Except.error (), fun _ => Except.error (), fun _ => Except.error ()⟩

/-- Allow-list that does not contain payload42's sender "42". -/
def cfgBlockList : Config := ⟨["a"], "auto"⟩

/-- Allow-list containing the literal default sender id "unknown". -/
def cfgUnknown : Config := ⟨["unknown"], "auto"⟩

/-- Allow-list containing only the wrapped sender id "42". -/
def cfgStrict : Config := ⟨["42"], "auto"⟩

/-! ### Derived observables of one request (statement abbreviations) -/

/-- The message list the orchestrator hands to the Inference Client. -/
def inferenceInput (store : Store) (payload : Json) : List Turn :=
  build_messages store (senderNameOf payload) (senderJidOf payload)
    (_extract_message_text payload)

/-- The text the Inference Client returns for this request. -/
def inferredReply (cfg : Config) (env : Env) (store : Store) (payload : Json) : String :=
  (_call_lm_studio cfg.modelPref env (inferenceInput store payload)).1

/-- The outbound calls the Inference Client makes for this request. -/
def inferredCalls (cfg : Config) (env : Env) (store : Store) (payload : Json) : List Event :=
  (_call_lm_studio cfg.modelPref env (inferenceInput store payload)).2

/-! ### Spec-side definitions (for refinement comparison)

These two follow the wording of spec section 4.5, to be compared with
`_messages_to_prompt`, which is translated from the source. -/

/-- Modelled from the spec wording: the rendering rule for one turn. -/
def renderTurn (m : Turn) : Option String :=
  let content := pyStrip m.content
  if content = "" then none
  else if m.role = "user" then some ("User: " ++ content)
  else if m.role = "assistant" then some ("Assistant: " ++ content)
  else some content

/-- Modelled from the spec wording of prompt linearization: take the last 8
turns, render each turn with non-empty content by role, skip empty-content
turns, join with newlines, and end with a trailing "Assistant:" line. -/
def linearize_spec (messages : List Turn) : String :=
  joinLines (((lastN 8 messages).filterMap renderTurn) ++ ["Assistant:"])

end WatusiBridge

namespace WatusiBridge

/-! ### Store lemmas -/

theorem storeGet_storeSet_self (s : Store) (k : Json) (v : List Turn) :
    storeGet (storeSet s k v) k = some v := by
  induction s with
  | nil => simp [storeSet, storeGet]
  | cons hd tl ih =>
    obtain ⟨k2, v2⟩ := hd
    by_cases h : k2 = k <;> simp [storeSet, storeGet, h, ih]

theorem storeGet_storeSet_other (s : Store) (k k2 : Json) (v : List Turn)
    (h : k2 ≠ k) : storeGet (storeSet s k v) k2 = storeGet s k2 := by
  have h2 : k ≠ k2 := Ne.symm h
  induction s with
  | nil => simp [storeSet, storeGet, h2]
  | cons hd tl ih =>
    obtain ⟨k3, v3⟩ := hd
    by_cases h3 : k3 = k
    · subst h3
      simp [storeSet, storeGet, h2]
    · by_cases h4 : k3 = k2 <;> simp [storeSet, storeGet, h3, h4, h, ih]

/-! ### Orchestrator path lemmas -/

/-- Both short-circuit paths of the handler return the empty reply without
touching the store or the backend. -/
theorem auto_reply_reject (cfg : Config) (env : Env) (store : Store) (payload : Json)
    (h : (cfg.allowedJids ≠ [] ∧ jidAllowed cfg.allowedJids (senderJidOf payload) = false)
         ∨ _extract_message_text payload = "") :
    auto_reply cfg env store payload = ⟨msgBody "", 200, store, []⟩ := by
  unfold auto_reply
  rcases h with h | h
  · rw [if_pos h]
  · by_cases hA : (cfg.allowedJids ≠ [] ∧
        jidAllowed cfg.allowedJids (senderJidOf payload) = false)
    · rw [if_pos hA]
    · rw [if_neg hA, if_pos h]

/-- The success path of the handler: reply body and store update. -/
theorem auto_reply_success (cfg : Config) (env : Env) (store : Store) (payload : Json)
    (h1 : cfg.allowedJids = [] ∨ jidAllowed cfg.allowedJids (senderJidOf payload) = true)
    (h2 : _extract_message_text payload ≠ "")
    (h3 : inferredReply cfg env store payload ≠ "") :
    auto_reply cfg env store payload =
      ⟨msgBody (inferredReply cfg env store payload), 200,
       storeSet store (senderJidOf payload)
         (((storeGet store (senderJidOf payload)).getD []) ++
          [⟨"user", _extract_message_text payload⟩,
           ⟨"assistant", inferredReply cfg env store payload⟩]),
       inferredCalls cfg env store payload⟩ := by
  have hcond : ¬ (cfg.allowedJids ≠ [] ∧
      jidAllowed cfg.allowedJids (senderJidOf payload) = false) := by
    rcases h1 with h | h
    · simp [h]
    · simp [h]
  unfold auto_reply
  rw [if_neg hcond, if_neg h2]
  rcases hc : _call_lm_studio cfg.modelPref env
      (build_messages store (senderNameOf payload) (senderJidOf payload)
        (_extract_message_text payload)) with ⟨ai, es⟩
  have hr : inferredReply cfg env store payload = ai := by
    simp [inferredReply, inferenceInput, hc]
  have he : inferredCalls cfg env store payload = es := by
    simp [inferredCalls, inferenceInput, hc]
  have h3' : ai ≠ "" := hr ▸ h3
  simp only [hc]
  rw [hr, he, if_neg h3']

/-- Against `envGood` the Inference Client succeeds on the first chat attempt
with "hello there", whatever the message list. -/
theorem call_envGood (msgs : List Turn) :
    _call_lm_studio "auto" envGood msgs
      = ("hello there", [Event.modelsFetch, Event.chatPost (Json.str "auto")]) := rfl

/-- Against `envFail` (every call raises) the Inference Client returns the
empty string, whatever the preference and message list. -/
theorem call_envFail (pref : String) (msgs : List Turn) :
    (_call_lm_studio pref envFail msgs).1 = "" := rfl

/-! ### Trace counting lemmas -/

theorem chatCount_nil : chatCount [] = 0 := rfl
theorem modelsCount_nil : modelsCount [] = 0 := rfl
theorem compCount_nil : compCount [] = 0 := rfl

theorem chatCount_cons (e : Event) (es : List Event) :
    chatCount (e :: es) = (if isChatPost e then 1 else 0) + chatCount es := by
  simp [chatCount, List.countP_cons]
  split <;> omega

theorem modelsCount_cons (e : Event) (es : List Event) :
    modelsCount (e :: es) = (if isModelsFetch e then 1 else 0) + modelsCount es := by
  simp [modelsCount, List.countP_cons]
  split <;> omega

theorem compCount_cons (e : Event) (es : List Event) :
    compCount (e :: es) = (if isCompPost e then 1 else 0) + compCount es := by
  simp [compCount, List.countP_cons]
  split <;> omega

/-! ### The four failure shapes of `_call_lm_studio`

When both primary attempts fail, the trace of outbound calls and the returned
text are fully determined by the failure mode of each attempt (exception vs
HTTP-success-with-empty-text) and the fallback call's outcome. -/

theorem call_shape_ok_ok (pref : String) (env : Env) (messages : List Turn)
    (j0 j1 : Json) (h0 : env.chat 0 = Except.ok j0) (e0 : _extract_ai_text j0 = "")
    (h1 : env.chat 1 = Except.ok j1) (e1 : _extract_ai_text j1 = "") :
    _call_lm_studio pref env messages
      = ((match env.comp 0 with
          | Except.error _ => ""
          | Except.ok j => _extract_ai_text j),
         [Event.modelsFetch,
          Event.chatPost (get_active_model pref (env.models 0)),
          Event.chatPost (get_active_model pref (env.models 0)),
          Event.modelsFetch,
          Event.compPost (get_active_model pref (env.models 1))
            (_messages_to_prompt messages)]) := by
  simp only [_call_lm_studio, resolveModel, postChat, postComp, fallbackCompletions,
    List.nil_append, List.cons_append, List.append_nil, List.singleton_append,
    chatCount_nil, modelsCount_nil, compCount_nil,
    chatCount_cons, modelsCount_cons, compCount_cons,
    isChatPost, isModelsFetch, isCompPost]
  norm_num
  simp only [h0, e0, h1, e1]
  norm_num
  cases env.comp 0 <;> rfl

theorem call_shape_ok_err (pref : String) (env : Env) (messages : List Turn)
    (j0 : Json) (h0 : env.chat 0 = Except.ok j0) (e0 : _extract_ai_text j0 = "")
    (h1 : env.chat 1 = Except.error ()) :
    _call_lm_studio pref env messages
      = ((match env.comp 0 with
          | Except.error _ => ""
          | Except.ok j => _extract_ai_text j),
         [Event.modelsFetch,
          Event.chatPost (get_active_model pref (env.models 0)),
          Event.chatPost (get_active_model pref (env.models 0)),
          Event.modelsFetch,
          Event.modelsFetch,
          Event.compPost (get_active_model pref (env.models 2))
            (_messages_to_prompt messages)]) := by
  simp only [_call_lm_studio, resolveModel, postChat, postComp, fallbackCompletions,
    List.nil_append, List.cons_append, List.append_nil, List.singleton_append,
    chatCount_nil, modelsCount_nil, compCount_nil,
    chatCount_cons, modelsCount_cons, compCount_cons,
    isChatPost, isModelsFetch, isCompPost]
  norm_num
  simp only [h0, e0, h1]
  norm_num
  cases env.comp 0 <;> rfl

theorem call_shape_err_ok (pref : String) (env : Env) (messages : List Turn)
    (j1 : Json) (h0 : env.chat 0 = Except.error ())
    (h1 : env.chat 1 = Except.ok j1) (e1 : _extract_ai_text j1 = "") :
    _call_lm_studio pref env messages
      = ((match env.comp 0 with
          | Except.error _ => ""
          | Except.ok j => _extract_ai_text j),
         [Event.modelsFetch,
          Event.chatPost (get_active_model pref (env.models 0)),
          Event.modelsFetch,
          Event.chatPost (get_active_model pref (env.models 1)),
          Event.modelsFetch,
          Event.compPost (get_active_model pref (env.models 2))
            (_messages_to_prompt messages)]) := by
  simp only [_call_lm_studio, resolveModel, postChat, postComp, fallbackCompletions,
    List.nil_append, List.cons_append, List.append_nil, List.singleton_append,
    chatCount_nil, modelsCount_nil, compCount_nil,
    chatCount_cons, modelsCount_cons, compCount_cons,
    isChatPost, isModelsFetch, isCompPost]
  norm_num
  simp only [h0, h1, e1]
  norm_num
  cases env.comp 0 <;> rfl

theorem call_shape_err_err (pref : String) (env : Env) (messages : List Turn)
    (h0 : env.chat 0 = Except.error ()) (h1 : env.chat 1 = Except.error ()) :
    _call_lm_studio pref env messages
      = ((match env.comp 0 with
          | Except.error _ => ""
          | Except.ok j => _extract_ai_text j),
         [Event.modelsFetch,
          Event.chatPost (get_active_model pref (env.models 0)),
          Event.modelsFetch,
          Event.chatPost (get_active_model pref (env.models 1)),
          Event.modelsFetch,
          Event.modelsFetch,
          Event.compPost (get_active_model pref (env.models 3))
            (_messages_to_prompt messages)]) := by
  simp only [_call_lm_studio, resolveModel, postChat, postComp, fallbackCompletions,
    List.nil_append, List.cons_append, List.append_nil, List.singleton_append,
    chatCount_nil, modelsCount_nil, compCount_nil,
    chatCount_cons, modelsCount_cons, compCount_cons,
    isChatPost, isModelsFetch, isCompPost]
  norm_num
  simp only [h0, h1]
  cases env.comp 0 <;> rfl

/-! ### The two retry-success shapes of `_call_lm_studio`

When the first primary attempt fails but the retry parses to non-empty text,
the retry's text is returned and no fallback call is made. -/

theorem call_shape_err_okS (pref : String) (env : Env) (messages : List Turn)
    (j1 : Json) (h0 : env.chat 0 = Except.error ())
    (h1 : env.chat 1 = Except.ok j1) (e1 : _extract_ai_text j1 ≠ "") :
    _call_lm_studio pref env messages
      = (_extract_ai_text j1,
         [Event.modelsFetch,
          Event.chatPost (get_active_model pref (env.models 0)),
          Event.modelsFetch,
          Event.chatPost (get_active_model pref (env.models 1))]) := by
  simp only [_call_lm_studio, resolveModel, postChat, postComp, fallbackCompletions,
    List.nil_append, List.cons_append, List.append_nil, List.singleton_append,
    chatCount_nil, modelsCount_nil, compCount_nil,
    chatCount_cons, modelsCount_cons, compCount_cons,
    isChatPost, isModelsFetch, isCompPost]
  norm_num
  simp only [h0, h1]
  simp [e1]

theorem call_shape_ok_okS (pref : String) (env : Env) (messages : List Turn)
    (j0 j1 : Json) (h0 : env.chat 0 = Except.ok j0) (e0 : _extract_ai_text j0 = "")
    (h1 : env.chat 1 = Except.ok j1) (e1 : _extract_ai_text j1 ≠ "") :
    _call_lm_studio pref env messages
      = (_extract_ai_text j1,
         [Event.modelsFetch,
          Event.chatPost (get_active_model pref (env.models 0)),
          Event.chatPost (get_active_model pref (env.models 0))]) := by
  simp only [_call_lm_studio, resolveModel, postChat, postComp, fallbackCompletions,
    List.nil_append, List.cons_append, List.append_nil, List.singleton_append,
    chatCount_nil, modelsCount_nil, compCount_nil,
    chatCount_cons, modelsCount_cons, compCount_cons,
    isChatPost, isModelsFetch, isCompPost]
  norm_num
  simp only [h0, e0, h1]
  simp [e1]

end WatusiBridge

namespace WatusiBridge

/-! ### Prompt linearization lemmas -/

theorem foldl_promptStep (ms : List Turn) (acc : List String) :
    ms.foldl promptStep acc = acc ++ ms.filterMap renderTurn := by
  induction ms generalizing acc with
  | nil => simp
  | cons m ms ih =>
    simp only [List.foldl_cons, List.filterMap_cons, ih, promptStep, renderTurn]
    by_cases h1 : pyStrip m.content = ""
    · simp [h1]
    · by_cases h2 : m.role = "user"
      · simp [h1, h2]
      · by_cases h3 : m.role = "assistant" <;> simp [h1, h2, h3]

theorem messages_to_prompt_eq_spec (messages : List Turn) :
    _messages_to_prompt messages = linearize_spec messages := by
  unfold _messages_to_prompt linearize_spec
  rw [foldl_promptStep]
  simp

theorem lastN_length_le (n : Nat) (l : List α) : (lastN n l).length ≤ n := by
  simp only [lastN, List.length_drop]
  omega

theorem lastN_of_le {n : Nat} {l : List α} (h : l.length ≤ n) : lastN n l = l := by
  simp only [lastN]
  rw [Nat.sub_eq_zero_of_le h, List.drop_zero]

theorem lastN_idem (n : Nat) (l : List α) : lastN n (lastN n l) = lastN n l :=
  lastN_of_le (lastN_length_le n l)

theorem prompt_window (messages : List Turn) :
    _messages_to_prompt (lastN 8 messages) = _messages_to_prompt messages := by
  unfold _messages_to_prompt
  rw [lastN_idem]

theorem splitNl_ne_nil (l : List Char) : splitNl l ≠ [] := by
  cases l with
  | nil => simp [splitNl]
  | cons c rest =>
    unfold splitNl
    rcases splitNl rest with _ | ⟨h1, t1⟩
    · simp
    · dsimp only
      split <;> simp

theorem splitNl_append (xs ys : List Char) :
    splitNl (xs ++ '\n' :: ys) = splitNl xs ++ splitNl ys := by
  induction xs with
  | nil =>
    simp only [List.nil_append, splitNl]
    rcases h : splitNl ys with _ | ⟨h1, t1⟩
    · exact absurd h (splitNl_ne_nil ys)
    · simp
  | cons c xs ih =>
    simp only [List.cons_append, splitNl, List.append_eq]
    rw [ih]
    rcases h : splitNl xs with _ | ⟨h1, t1⟩
    · exact absurd h (splitNl_ne_nil xs)
    · simp only [List.cons_append]
      by_cases hc : c = '\n' <;> simp [hc]

/-- Joining any parts list and ending it with "Assistant:" always makes
"Assistant:" the last newline-separated line of the result. -/
theorem last_line_assistant (parts : List String) :
    (splitNl (joinLines (parts ++ ["Assistant:"])).data).getLast?
      = some ("Assistant:".data) := by
  induction parts with
  | nil => decide
  | cons p ps ih =>
    have hj : joinLines ((p :: ps) ++ ["Assistant:"])
        = p ++ "\n" ++ joinLines (ps ++ ["Assistant:"]) := by
      cases hps : ps ++ ["Assistant:"] with
      | nil => simp at hps
      | cons q qs =>
        rw [List.cons_append, hps]
        rfl
    rw [hj, String.data_append, String.data_append]
    have hnl : ("\n" : String).data = ['\n'] := rfl
    rw [hnl, List.append_assoc, List.singleton_append, splitNl_append]
    rw [List.getLast?_append_of_ne_nil _ (splitNl_ne_nil _)]
    exact ih

/-! ### Claim theorems -/

/-- C1: for every configuration, backend behaviour, store state and inbound
payload, the handler responds with HTTP status 200 and a body of the shape
`jsonify({"message": s})` for some string `s`; in particular, with a backend
on which every outbound call raises (`envFail`), the response is the
well-formed empty reply and the store is untouched — an internal error never
surfaces as a non-2xx HTTP failure. -/
theorem claim_C1_http_boundary (cfg : Config) (env : Env) (store : Store) (payload : Json) :
    ((auto_reply cfg env store payload).status = 200 ∧
     ∃ s : String, (auto_reply cfg env store payload).body = msgBody s) ∧
    ((auto_reply cfg envFail store payload).body = msgBody "" ∧
     (auto_reply cfg envFail store payload).conversations = store) := by
  constructor
  · unfold auto_reply
    dsimp only
    split
    · exact ⟨rfl, "", rfl⟩
    split
    · exact ⟨rfl, "", rfl⟩
    rcases hc : _call_lm_studio cfg.modelPref env
        (build_messages store (senderNameOf payload) (senderJidOf payload)
          (_extract_message_text payload)) with ⟨ai, es⟩
    simp only [hc]
    split
    · exact ⟨rfl, "", rfl⟩
    · exact ⟨rfl, ai, rfl⟩
  · unfold auto_reply
    dsimp only
    split
    · exact ⟨rfl, rfl⟩
    split
    · exact ⟨rfl, rfl⟩
    rcases hc : _call_lm_studio cfg.modelPref envFail
        (build_messages store (senderNameOf payload) (senderJidOf payload)
          (_extract_message_text payload)) with ⟨ai, es⟩
    have hai : ai = "" := by
      have h := call_envFail cfg.modelPref
        (build_messages store (senderNameOf payload) (senderJidOf payload)
          (_extract_message_text payload))
      rw [hc] at h
      exact h
    simp only [hc, hai]
    simp

/-- C2, counterexample: the handler never truncates on write.  Five successful
exchanges from the same sender "42" leave a stored sequence of 10 turns,
which exceeds the claimed 8-turn bound. -/
theorem claim_C2_counterexample :
    ((storeGet (runExchanges cfgOpen envGood payload42 5) (Json.str "42")).getD
        []).length = 10 ∧
    ¬ ((storeGet (runExchanges cfgOpen envGood payload42 5) (Json.str "42")).getD
        []).length ≤ 8 := by
  decide

/-- C2, amended: the store is not truncated on write.  Every successful
exchange appends exactly 2 turns to the sender's stored sequence, so the
stored sequence grows without bound (2n turns after n successful exchanges in
the concrete scenario); only the read for prompt building truncates to 8. -/
theorem claim_C2_amended (cfg : Config) (env : Env) (store : Store) (payload : Json)
    (h1 : cfg.allowedJids = [] ∨ jidAllowed cfg.allowedJids (senderJidOf payload) = true)
    (h2 : _extract_message_text payload ≠ "")
    (h3 : inferredReply cfg env store payload ≠ "") :
    ((storeGet (auto_reply cfg env store payload).conversations
        (senderJidOf payload)).getD []).length
      = ((storeGet store (senderJidOf payload)).getD []).length + 2 ∧
    ∀ n : Nat,
      ((storeGet (runExchanges cfgOpen envGood payload42 n) (Json.str "42")).getD
          []).length = 2 * n := by
  constructor
  · rw [auto_reply_success cfg env store payload h1 h2 h3]
    dsimp only
    rw [storeGet_storeSet_self]
    simp
  · intro n
    induction n with
    | zero => rfl
    | succ n ih =>
      have hjid : senderJidOf payload42 = Json.str "42" := rfl
      have h3' : inferredReply cfgOpen envGood
          (runExchanges cfgOpen envGood payload42 n) payload42 ≠ "" := by
        simp [inferredReply, cfgOpen, call_envGood]
      have hs := auto_reply_success cfgOpen envGood
        (runExchanges cfgOpen envGood payload42 n) payload42 (Or.inl rfl) (by decide) h3'
      show ((storeGet (auto_reply cfgOpen envGood
          (runExchanges cfgOpen envGood payload42 n) payload42).conversations
          (Json.str "42")).getD []).length = 2 * (n + 1)
      rw [hs]
      dsimp only
      rw [← hjid, storeGet_storeSet_self]
      simp only [Option.getD_some, List.length_append, hjid, ih]
      simp
      omega

/-- C2, witness for the amended claim at a concrete input. -/
theorem claim_C2_amended_witness :
    ((storeGet (auto_reply cfgOpen envGood [] payload42).conversations
        (senderJidOf payload42)).getD []).length
      = ((storeGet ([] : Store) (senderJidOf payload42)).getD []).length + 2 :=
  (claim_C2_amended cfgOpen envGood [] payload42 (Or.inl rfl) (by decide) (by decide)).1

end WatusiBridge

namespace WatusiBridge

/-- C3, counterexample: against `envShift` the first primary attempt is an
HTTP success whose body cannot be parsed into non-empty text.  The claim
requires a model re-resolution before the single retry, which here would
select "m2" (the second catalog fetch); instead the retry posts with the
original "m1" and the first three outbound calls contain only the one initial
models fetch. -/
theorem claim_C3_counterexample :
    _call_lm_studio "auto" envShift msgsHi
      = ("", [Event.modelsFetch, Event.chatPost (Json.str "m1"),
              Event.chatPost (Json.str "m1"), Event.modelsFetch,
              Event.compPost (Json.str "m2") "User: hi\nAssistant:"]) ∧
    get_active_model "auto" (envShift.models 1) = Json.str "m2" ∧
    modelsCount ((_call_lm_studio "auto" envShift msgsHi).2.take 3) = 1 := by
  decide

/-- C3, amended: whenever the first primary attempt fails, the primary
endpoint is attempted exactly 2 times in total, but the model id is
re-resolved before the single retry only when the first attempt raised
(transport/HTTP/JSON error) — when the first attempt returned HTTP success
with empty extracted text, the retry reuses the model id resolved before the
first attempt.  If the retry parses to non-empty text, that text is returned
and no fallback call is made; if the retry fails too, exactly one fallback
completions call is made, whose extracted text (empty on any fallback
failure) is returned; the function never raises past its boundary. -/
theorem claim_C3_amended (pref : String) (env : Env) (messages : List Turn)
    (h1 : attemptFailed (env.chat 0) = true) :
    chatCount (_call_lm_studio pref env messages).2 = 2 ∧
    (env.chat 0 = Except.error () →
      ((_call_lm_studio pref env messages).2).take 4
        = [Event.modelsFetch, Event.chatPost (get_active_model pref (env.models 0)),
           Event.modelsFetch, Event.chatPost (get_active_model pref (env.models 1))]) ∧
    (∀ j, env.chat 0 = Except.ok j →
      ((_call_lm_studio pref env messages).2).take 3
        = [Event.modelsFetch, Event.chatPost (get_active_model pref (env.models 0)),
           Event.chatPost (get_active_model pref (env.models 0))]) ∧
    (attemptFailed (env.chat 1) = false →
      compCount (_call_lm_studio pref env messages).2 = 0 ∧
      ∀ j, env.chat 1 = Except.ok j →
        (_call_lm_studio pref env messages).1 = _extract_ai_text j) ∧
    (attemptFailed (env.chat 1) = true →
      compCount (_call_lm_studio pref env messages).2 = 1 ∧
      (env.comp 0 = Except.error () → (_call_lm_studio pref env messages).1 = "") ∧
      (∀ j, env.comp 0 = Except.ok j →
        (_call_lm_studio pref env messages).1 = _extract_ai_text j)) := by
  rcases hc0 : env.chat 0 with u0 | j0
  · cases u0
    rcases hc1 : env.chat 1 with u1 | j1
    · cases u1
      rw [call_shape_err_err pref env messages hc0 hc1]
      refine ⟨rfl, fun _ => rfl, ?_, ?_, ?_⟩
      · intro j hj; simp at hj
      · intro h; simp [attemptFailed] at h
      · intro _
        refine ⟨rfl, ?_, ?_⟩
        · intro h; rw [h]
        · intro j hj; rw [hj]
    · by_cases he1 : _extract_ai_text j1 = ""
      · rw [call_shape_err_ok pref env messages j1 hc0 hc1 he1]
        refine ⟨rfl, fun _ => rfl, ?_, ?_, ?_⟩
        · intro j hj; simp at hj
        · intro h; simp [attemptFailed, he1] at h
        · intro _
          refine ⟨rfl, ?_, ?_⟩
          · intro h; rw [h]
          · intro j hj; rw [hj]
      · rw [call_shape_err_okS pref env messages j1 hc0 hc1 he1]
        refine ⟨rfl, fun _ => rfl, ?_, ?_, ?_⟩
        · intro j hj; simp at hj
        · intro _
          refine ⟨rfl, ?_⟩
          intro j hj
          injection hj with hh
          rw [hh]
        · intro h; simp [attemptFailed, he1] at h
  · have e0 : _extract_ai_text j0 = "" := by simpa [attemptFailed, hc0] using h1
    rcases hc1 : env.chat 1 with u1 | j1
    · cases u1
      rw [call_shape_ok_err pref env messages j0 hc0 e0 hc1]
      refine ⟨rfl, ?_, fun _ _ => rfl, ?_, ?_⟩
      · intro h; simp at h
      · intro h; simp [attemptFailed] at h
      · intro _
        refine ⟨rfl, ?_, ?_⟩
        · intro h; rw [h]
        · intro j hj; rw [hj]
    · by_cases he1 : _extract_ai_text j1 = ""
      · rw [call_shape_ok_ok pref env messages j0 j1 hc0 e0 hc1 he1]
        refine ⟨rfl, ?_, fun _ _ => rfl, ?_, ?_⟩
        · intro h; simp at h
        · intro h; simp [attemptFailed, he1] at h
        · intro _
          refine ⟨rfl, ?_, ?_⟩
          · intro h; rw [h]
          · intro j hj; rw [hj]
      · rw [call_shape_ok_okS pref env messages j0 j1 hc0 e0 hc1 he1]
        refine ⟨rfl, ?_, fun _ _ => rfl, ?_, ?_⟩
        · intro h; simp at h
        · intro _
          refine ⟨rfl, ?_⟩
          intro j hj
          injection hj with hh
          rw [hh]
        · intro h; simp [attemptFailed, he1] at h

/-- C3, witness for the amended claim at a concrete input on which both
attempts fail: exactly 2 primary posts and exactly 1 fallback post. -/
theorem claim_C3_witness :
    chatCount (_call_lm_studio "auto" envShift msgsHi).2 = 2 ∧
    compCount (_call_lm_studio "auto" envShift msgsHi).2 = 1 := by
  have h := claim_C3_amended "auto" envShift msgsHi (by decide)
  exact ⟨h.1, (h.2.2.2.2 (by decide)).1⟩

/-- C4: on the success path (allow-list passes, extracted text non-empty,
inference returns non-empty text), the response body is exactly
`jsonify({"message": reply})` with the reply verbatim, the sender's stored
sequence grows by exactly the user turn followed by the assistant turn, and
every other sender's entry is unchanged. -/
theorem claim_C4_success_path (cfg : Config) (env : Env) (store : Store) (payload : Json)
    (h1 : cfg.allowedJids = [] ∨ jidAllowed cfg.allowedJids (senderJidOf payload) = true)
    (h2 : _extract_message_text payload ≠ "")
    (h3 : inferredReply cfg env store payload ≠ "") :
    ((auto_reply cfg env store payload).body
        = msgBody (inferredReply cfg env store payload) ∧
     storeGet (auto_reply cfg env store payload).conversations (senderJidOf payload)
        = some (((storeGet store (senderJidOf payload)).getD []) ++
            [⟨"user", _extract_message_text payload⟩,
             ⟨"assistant", inferredReply cfg env store payload⟩])) ∧
    ∀ k, k ≠ senderJidOf payload →
      storeGet (auto_reply cfg env store payload).conversations k = storeGet store k := by
  rw [auto_reply_success cfg env store payload h1 h2 h3]
  refine ⟨⟨rfl, storeGet_storeSet_self _ _ _⟩, ?_⟩
  intro k hk
  exact storeGet_storeSet_other _ _ _ _ hk

/-- C4, witness: the end-to-end scenario of the spec — payload
jid "42" / text "hi" against a backend answering "hello there". -/
theorem claim_C4_witness :
    (auto_reply cfgOpen envGood [] payload42).body
        = msgBody (inferredReply cfgOpen envGood [] payload42) ∧
    storeGet (auto_reply cfgOpen envGood [] payload42).conversations (senderJidOf payload42)
        = some (((storeGet ([] : Store) (senderJidOf payload42)).getD []) ++
            [⟨"user", _extract_message_text payload42⟩,
             ⟨"assistant", inferredReply cfgOpen envGood [] payload42⟩]) :=
  (claim_C4_success_path cfgOpen envGood [] payload42 (Or.inl rfl) (by decide)
    (by decide)).1

/-- C5: the Model Resolver returns "m1" for preference "auto" over catalog
["m1","m2"], "m2" for preference "m2", "m1" for preference "missing", and on
any failure to fetch or parse the model listing it returns the configured
preference string unchanged (the function is total: no failure escapes). -/
theorem claim_C5_model_resolver :
    get_active_model "auto" (Except.ok (modelsCatalog ["m1", "m2"])) = Json.str "m1" ∧
    get_active_model "m2" (Except.ok (modelsCatalog ["m1", "m2"])) = Json.str "m2" ∧
    get_active_model "missing" (Except.ok (modelsCatalog ["m1", "m2"])) = Json.str "m1" ∧
    ∀ pref : String, get_active_model pref (Except.error ()) = Json.str pref :=
  ⟨by decide, by decide, by decide, fun _ => rfl⟩

/-- C6: the history read from the store when building the backend message
list is the last-8 slice of the stored sequence: it never exceeds 8 turns, is
a suffix of the stored sequence, and the built message list is exactly that
history plus the new user turn. -/
theorem claim_C6_history_bound (store : Store) (name jid : Json) (text : String) :
    build_messages store name jid text
      = lastN 8 ((storeGet store jid).getD []) ++ [⟨"user", text⟩] ∧
    (lastN 8 ((storeGet store jid).getD [])).length ≤ 8 ∧
    lastN 8 ((storeGet store jid).getD []) <:+ ((storeGet store jid).getD []) := by
  refine ⟨rfl, ?_, ?_⟩
  · simp only [lastN, List.length_drop]
    omega
  · exact List.drop_suffix _ _

/-- C7: if the allow-list is non-empty and the normalized sender id is not
allowed, or the extracted message text is empty, the handler returns the
empty reply, makes no outbound call, and leaves the store unchanged. -/
theorem claim_C7_short_circuit (cfg : Config) (env : Env) (store : Store) (payload : Json)
    (h : (cfg.allowedJids ≠ [] ∧ jidAllowed cfg.allowedJids (senderJidOf payload) = false)
         ∨ _extract_message_text payload = "") :
    auto_reply cfg env store payload = ⟨msgBody "", 200, store, []⟩ :=
  auto_reply_reject cfg env store payload h

/-- C7, witness: sender "42" against allow-list ["a"]. -/
theorem claim_C7_witness :
    auto_reply cfgBlockList envGood [] payload42 = ⟨msgBody "", 200, [], []⟩ :=
  claim_C7_short_circuit cfgBlockList envGood [] payload42 (Or.inl (by decide))

/-- C8: prompt linearization coincides with the spec-side definition
(last 8 turns, role-based rendering, empty-content turns skipped, newline
join, trailing "Assistant:" line); it depends only on the last 8 turns; its
last newline-separated line is always "Assistant:"; and when both primary
attempts fail, the single completions fallback call carries exactly this
linearized prompt. -/
theorem claim_C8_prompt_linearization (messages : List Turn) (pref : String) (env : Env)
    (h1 : attemptFailed (env.chat 0) = true)
    (h2 : attemptFailed (env.chat 1) = true) :
    _messages_to_prompt messages = linearize_spec messages ∧
    _messages_to_prompt (lastN 8 messages) = _messages_to_prompt messages ∧
    (splitNl (_messages_to_prompt messages).data).getLast? = some ("Assistant:".data) ∧
    ∃ mid, ((_call_lm_studio pref env messages).2).filter isCompPost
        = [Event.compPost mid (_messages_to_prompt messages)] := by
  refine ⟨messages_to_prompt_eq_spec messages, prompt_window messages, ?_, ?_⟩
  · unfold _messages_to_prompt
    exact last_line_assistant ((lastN 8 messages).foldl promptStep [])
  · rcases hc0 : env.chat 0 with u0 | j0
    · cases u0
      rcases hc1 : env.chat 1 with u1 | j1
      · cases u1
        rw [call_shape_err_err pref env messages hc0 hc1]
        exact ⟨_, rfl⟩
      · have e1 : _extract_ai_text j1 = "" := by simpa [attemptFailed, hc1] using h2
        rw [call_shape_err_ok pref env messages j1 hc0 hc1 e1]
        exact ⟨_, rfl⟩
    · have e0 : _extract_ai_text j0 = "" := by simpa [attemptFailed, hc0] using h1
      rcases hc1 : env.chat 1 with u1 | j1
      · cases u1
        rw [call_shape_ok_err pref env messages j0 hc0 e0 hc1]
        exact ⟨_, rfl⟩
      · have e1 : _extract_ai_text j1 = "" := by simpa [attemptFailed, hc1] using h2
        rw [call_shape_ok_ok pref env messages j0 j1 hc0 e0 hc1 e1]
        exact ⟨_, rfl⟩

/-- C8, witness at a concrete input. -/
theorem claim_C8_witness :
    (splitNl (_messages_to_prompt msgsHi).data).getLast? = some ("Assistant:".data) ∧
    ∃ mid, ((_call_lm_studio "auto" envShift msgsHi).2).filter isCompPost
        = [Event.compPost mid (_messages_to_prompt msgsHi)] := by
  have h := claim_C8_prompt_linearization msgsHi "auto" envShift (by decide) (by decide)
  exact ⟨h.2.2.1, h.2.2.2⟩

/-- C9, counterexample: a fully-wrapped payload is not always rejected when an
allow-list is configured — with allow-list ["unknown"], the wrapped payload
passes the check (its normalized sender id is the default "unknown") and
receives the backend's reply. -/
theorem claim_C9_counterexample :
    (auto_reply cfgUnknown envGood [] wrappedPayload).body = msgBody "hello there" ∧
    msgBody "hello there" ≠ msgBody "" := by
  decide

/-- C9, amended: sender id and name are probed only at the top level, so a
payload carrying no top-level sender keys normalizes to sender "unknown" and
name "User"; whenever an allow-list is configured and does not contain the
literal string "unknown", such a payload is rejected with the empty reply, no
outbound call and no store change (text extraction from the wrapper
notwithstanding). -/
theorem claim_C9_amended (cfg : Config) (env : Env) (store : Store) (payload : Json)
    (hjid : payload.get "jid" = none) (hwa : payload.get "wa_id" = none)
    (hfrom : payload.get "from" = none)
    (hname : payload.get "name" = none) (hprof : payload.get "profile_name" = none)
    (hchat : payload.get "chat_name" = none)
    (hne : cfg.allowedJids ≠ []) (hunk : "unknown" ∉ cfg.allowedJids) :
    senderJidOf payload = Json.str "unknown" ∧
    senderNameOf payload = Json.str "User" ∧
    auto_reply cfg env store payload = ⟨msgBody "", 200, store, []⟩ := by
  have hsend : senderJidOf payload = Json.str "unknown" := by
    simp [senderJidOf, firstTruthy, hjid, hwa, hfrom]
  have hnm : senderNameOf payload = Json.str "User" := by
    simp [senderNameOf, firstTruthy, hname, hprof, hchat]
  refine ⟨hsend, hnm, ?_⟩
  apply auto_reply_reject
  left
  refine ⟨hne, ?_⟩
  rw [hsend]
  simp only [jidAllowed]
  simpa using hunk

/-- C9, witness for the amended claim: the wrapped payload (wrapped sender id
"42") against allow-list ["42"] is still rejected. -/
theorem claim_C9_witness :
    senderJidOf wrappedPayload = Json.str "unknown" ∧
    senderNameOf wrappedPayload = Json.str "User" ∧
    auto_reply cfgStrict envGood [] wrappedPayload = ⟨msgBody "", 200, [], []⟩ :=
  claim_C9_amended cfgStrict envGood [] wrappedPayload (by decide) (by decide) (by decide)
    (by decide) (by decide) (by decide) (by decide) (by decide)

end WatusiBridge
